import Mathlib

/-! AMBF server communication objects: `Object` and `Vehicle`

A shallow embedding of the inline members of `ambf_comm::Object`
(`ambf_server/Object.h`) and `ambf_comm::Vehicle` (`ambf_server/Vehicle.h`),
together with a model of the rate-throttled publisher and the command watchdog
that the constructors configure.

The C++ members mutate the protected member `m_State`; here every member is a
function from the object before the call to the object after the call.
-/

namespace ambf_comm

/-! ## Scalars -/

/-- An IEEE-754 binary64 value (`double`), held as its three bit fields.  The
members embedded below only copy such values; the single operation needed on
them is the comparison with zero. -/
structure Double where
  sign : Bool
  exponent : Fin 2048
  mantissa : Fin 4503599627370496
deriving DecidableEq, Repr

/-- An IEEE-754 binary32 value (`float`), held as its three bit fields. -/
structure CFloat where
  sign : Bool
  exponent : Fin 256
  mantissa : Fin 8388608
deriving DecidableEq, Repr

namespace Double

/-- Not-a-number: all exponent bits set and a non-zero mantissa. -/
def isNaN (d : Double) : Bool := d.exponent.val == 2047 && d.mantissa.val != 0

/-- Positive or negative zero. -/
def isZero (d : Double) : Bool := d.exponent.val == 0 && d.mantissa.val == 0

/-- The C++ comparison `d >= 0.0`: false on NaN, true on either zero, and
otherwise decided by the sign bit. -/
def ge0 (d : Double) : Bool := !d.isNaN && (d.isZero || !d.sign)

/-- The value `+0.0`. -/
def zero : Double := ⟨false, ⟨0, by decide⟩, ⟨0, by decide⟩⟩

/-- The value `1.0`. -/
def one : Double := ⟨false, ⟨1023, by decide⟩, ⟨0, by decide⟩⟩

/-- The value `2.0`. -/
def two : Double := ⟨false, ⟨1024, by decide⟩, ⟨0, by decide⟩⟩

/-- The value `-1.0`. -/
def negOne : Double := ⟨true, ⟨1023, by decide⟩, ⟨0, by decide⟩⟩

/-- A quiet NaN. -/
def qNaN : Double := ⟨false, ⟨2047, by decide⟩, ⟨2251799813685248, by decide⟩⟩

end Double

/-- The range of a C++ `int` (32 bits, two's complement). -/
def isInt32 (i : Int) : Bool := decide (-2147483648 ≤ i) && decide (i ≤ 2147483647)

/-! ## The state messages

The message types `ambf_msgs::ObjectState` and `ambf_msgs::VehicleState` are
generated from message definitions; the members used by the two headers and the
fields of the state message fix the shape below. -/

/-- Three `double` components, as in `m_State.pInertia`. -/
structure Vector3 where
  x : Double
  y : Double
  z : Double
deriving DecidableEq, Repr

/-- Four `double` components of an orientation. -/
structure Quaternion where
  x : Double
  y : Double
  z : Double
  w : Double
deriving DecidableEq, Repr

/-- Modelled from the spec: the declaration of `ambf_msgs::ObjectState`, the
type of `Object::m_State`.  The fields are those of the state message (name,
namespace, position, orientation, linear force, torque, mass, principal
inertia, children names, joint names, joint positions, user data and its
description); `mass`, `pInertia`, `userdata_description`, `children_names` and
`joint_names` carry the names the inline members of `Object.h` use, each with
the type of the member's parameter or result. -/
structure ObjectState where
  name : String
  name_space : String
  position : Vector3
  orientation : Quaternion
  linear_force : Vector3
  torque : Vector3
  mass : Double
  pInertia : Vector3
  children_names : List String
  joint_names : List String
  joint_positions : List CFloat
  userdata : List CFloat
  userdata_description : String
deriving DecidableEq, Repr

/-- Modelled from the spec: the declaration of `ambf_msgs::VehicleState`, the
type of `Vehicle::m_State`: the fields of the state message followed by the
vehicle fields `wheel_count` and `type`.  `wheel_count`, `mass` and `pInertia`
carry the names the inline members of `Vehicle.h` use, each with the type of
the member's parameter (`int`, `double`). -/
structure VehicleState where
  name : String
  name_space : String
  position : Vector3
  orientation : Quaternion
  linear_force : Vector3
  torque : Vector3
  mass : Double
  pInertia : Vector3
  children_names : List String
  joint_names : List String
  joint_positions : List CFloat
  userdata : List CFloat
  userdata_description : String
  wheel_count : Int
  type : String
deriving DecidableEq, Repr

/-! ## `class Object` -/

/-- An `ambf_comm::Object`, as far as its inline members see it: the state
message `m_State` inherited from `ObjectRosCom`. -/
structure Object where
  m_State : ObjectState
deriving DecidableEq, Repr

namespace Object

/-- Source: `inline void set_mass(double a_mass){m_State.mass = a_mass;}` -/
def set_mass (o : Object) (a_mass : Double) : Object :=
  { o with m_State := { o.m_State with mass := a_mass } }

/-- Source: `inline void set_principal_inertia(double Ixx, double Iyy, double Izz)` with body
`m_State.pInertia.x = Ixx; m_State.pInertia.y = Iyy; m_State.pInertia.z = Izz;` -/
def set_principal_inertia (o : Object) (Ixx Iyy Izz : Double) : Object :=
  let s1 : ObjectState := { o.m_State with pInertia := { o.m_State.pInertia with x := Ixx } }
  let s2 : ObjectState := { s1 with pInertia := { s1.pInertia with y := Iyy } }
  let s3 : ObjectState := { s2 with pInertia := { s2.pInertia with z := Izz } }
  { o with m_State := s3 }

/-- Source: `inline void set_userdata_desc(std::string description)` with body
`m_State.userdata_description = description;` -/
def set_userdata_desc (o : Object) (description : String) : Object :=
  { o with m_State := { o.m_State with userdata_description := description } }

/-- Source:
`inline std::vector<std::string> get_children_names(){return m_State.children_names;}`
The member is not `const`; the result is paired with the object after the call. -/
def get_children_names (o : Object) : List String × Object :=
  (o.m_State.children_names, o)

/-- Source:
`inline std::vector<std::string> get_joint_names(){return m_State.joint_names;}`
The member is not `const`; the result is paired with the object after the call. -/
def get_joint_names (o : Object) : List String × Object :=
  (o.m_State.joint_names, o)

end Object

/-! ## `class Vehicle` -/

/-- An `ambf_comm::Vehicle`, as far as its inline members see it: the state
message `m_State` inherited from `VehicleRosCom`. -/
structure Vehicle where
  m_State : VehicleState
deriving DecidableEq, Repr

namespace Vehicle

/-- Source: `inline void set_wheel_count(int count){m_State.wheel_count = count;}` -/
def set_wheel_count (v : Vehicle) (count : Int) : Vehicle :=
  { v with m_State := { v.m_State with wheel_count := count } }

/-- Source: `inline void set_mass(double mass){m_State.mass = mass;}` -/
def set_mass (v : Vehicle) (mass : Double) : Vehicle :=
  { v with m_State := { v.m_State with mass := mass } }

/-- Source: `inline void set_principal_inertia(double ix, double iy, double iz)` with body
`m_State.pInertia.x = ix; m_State.pInertia.y = iy; m_State.pInertia.z = iz;` -/
def set_principal_inertia (v : Vehicle) (ix iy iz : Double) : Vehicle :=
  let s1 : VehicleState := { v.m_State with pInertia := { v.m_State.pInertia with x := ix } }
  let s2 : VehicleState := { s1 with pInertia := { s1.pInertia with y := iy } }
  let s3 : VehicleState := { s2 with pInertia := { s2.pInertia with z := iz } }
  { v with m_State := s3 }

end Vehicle

/-! ## Sample objects -/

/-- The vector with three `+0.0` components. -/
def Vector3.zero : Vector3 := ⟨Double.zero, Double.zero, Double.zero⟩

/-- An object state with one child, one joint, and `+0.0` mass and inertia. -/
def ObjectState.sample : ObjectState where
  name := "box"
  name_space := "/ambf/env/"
  position := Vector3.zero
  orientation := ⟨Double.zero, Double.zero, Double.zero, Double.one⟩
  linear_force := Vector3.zero
  torque := Vector3.zero
  mass := Double.zero
  pInertia := Vector3.zero
  children_names := ["lid"]
  joint_names := ["hinge"]
  joint_positions := []
  userdata := []
  userdata_description := ""

/-- A vehicle state with `+0.0` everywhere and no wheels. -/
def VehicleState.sample : VehicleState where
  name := "car"
  name_space := "/ambf/env/"
  position := Vector3.zero
  orientation := ⟨Double.zero, Double.zero, Double.zero, Double.one⟩
  linear_force := Vector3.zero
  torque := Vector3.zero
  mass := Double.zero
  pInertia := Vector3.zero
  children_names := []
  joint_names := []
  joint_positions := []
  userdata := []
  userdata_description := ""
  wheel_count := 0
  type := "ground"

/-- A sample `Object`. -/
def Object.sample : Object := ⟨ObjectState.sample⟩

/-- A sample `Vehicle`. -/
def Vehicle.sample : Vehicle := ⟨VehicleState.sample⟩

/-! ## Frame predicates

Each predicate lists every field of the state message but the one a setter
writes. -/

/-- All fields of two object states agree, `mass` possibly excepted. -/
def ObjectState.agreeExceptMass (s t : ObjectState) : Prop :=
  s.name = t.name ∧ s.name_space = t.name_space ∧ s.position = t.position ∧
  s.orientation = t.orientation ∧ s.linear_force = t.linear_force ∧ s.torque = t.torque ∧
  s.pInertia = t.pInertia ∧ s.children_names = t.children_names ∧
  s.joint_names = t.joint_names ∧ s.joint_positions = t.joint_positions ∧
  s.userdata = t.userdata ∧ s.userdata_description = t.userdata_description

/-- All fields of two object states agree, `pInertia` possibly excepted. -/
def ObjectState.agreeExceptInertia (s t : ObjectState) : Prop :=
  s.name = t.name ∧ s.name_space = t.name_space ∧ s.position = t.position ∧
  s.orientation = t.orientation ∧ s.linear_force = t.linear_force ∧ s.torque = t.torque ∧
  s.mass = t.mass ∧ s.children_names = t.children_names ∧
  s.joint_names = t.joint_names ∧ s.joint_positions = t.joint_positions ∧
  s.userdata = t.userdata ∧ s.userdata_description = t.userdata_description

/-- All fields of two object states agree, `userdata_description` possibly
excepted. -/
def ObjectState.agreeExceptDesc (s t : ObjectState) : Prop :=
  s.name = t.name ∧ s.name_space = t.name_space ∧ s.position = t.position ∧
  s.orientation = t.orientation ∧ s.linear_force = t.linear_force ∧ s.torque = t.torque ∧
  s.mass = t.mass ∧ s.pInertia = t.pInertia ∧ s.children_names = t.children_names ∧
  s.joint_names = t.joint_names ∧ s.joint_positions = t.joint_positions ∧
  s.userdata = t.userdata

/-- All fields of two vehicle states agree, `mass` possibly excepted. -/
def VehicleState.agreeExceptMass (s t : VehicleState) : Prop :=
  s.name = t.name ∧ s.name_space = t.name_space ∧ s.position = t.position ∧
  s.orientation = t.orientation ∧ s.linear_force = t.linear_force ∧ s.torque = t.torque ∧
  s.pInertia = t.pInertia ∧ s.children_names = t.children_names ∧
  s.joint_names = t.joint_names ∧ s.joint_positions = t.joint_positions ∧
  s.userdata = t.userdata ∧ s.userdata_description = t.userdata_description ∧
  s.wheel_count = t.wheel_count ∧ s.type = t.type

/-- All fields of two vehicle states agree, `pInertia` possibly excepted. -/
def VehicleState.agreeExceptInertia (s t : VehicleState) : Prop :=
  s.name = t.name ∧ s.name_space = t.name_space ∧ s.position = t.position ∧
  s.orientation = t.orientation ∧ s.linear_force = t.linear_force ∧ s.torque = t.torque ∧
  s.mass = t.mass ∧ s.children_names = t.children_names ∧
  s.joint_names = t.joint_names ∧ s.joint_positions = t.joint_positions ∧
  s.userdata = t.userdata ∧ s.userdata_description = t.userdata_description ∧
  s.wheel_count = t.wheel_count ∧ s.type = t.type

/-! ## The bridge: state buffer, command buffer, throttle and watchdog

`Object::Object`, `Vehicle::Vehicle` and `Object::get_command` are declared in
the headers and defined elsewhere, as are the base classes that hold the
publishing and watchdog logic.  The definitions of this section follow the
component design of the specification.  Times, frequencies and the timeout are
exact rationals (seconds and hertz); the integer frequencies of the declared
constructors are among them. -/

/-- Modelled from the spec: the configuration the constructors
`Object::Object` / `Vehicle::Vehicle` (declared, not defined, in the headers)
take: name, namespace, minimum and maximum publish frequency and command
timeout, fixed for the lifetime of the bridge. -/
structure BridgeConfig where
  name : String
  name_space : String
  min_frequency : ℚ
  max_frequency : ℚ
  timeout : ℚ
deriving DecidableEq

/-- Modelled from the spec: the throttle's `minInterval = 1/maxFrequency`; the
throttle is not among the sources. -/
def BridgeConfig.minInterval (c : BridgeConfig) : ℚ := 1 / c.max_frequency

/-- Modelled from the spec: the throttle's `maxInterval = 1/minFrequency`; the
throttle is not among the sources. -/
def BridgeConfig.maxInterval (c : BridgeConfig) : ℚ := 1 / c.min_frequency

/-- Modelled from the spec: the StateBuffer component, missing from the
sources: the latest state, or nothing ("unset") before the first write. -/
structure StateBuffer (S : Type) where
  value : Option S
deriving DecidableEq

/-- Modelled from the spec: `StateBuffer.set(state)` replaces the stored state. -/
def StateBuffer.set {S : Type} (_b : StateBuffer S) (state : S) : StateBuffer S :=
  ⟨some state⟩

/-- Modelled from the spec: `StateBuffer.get()` returns the most recently set
value, or the unset sentinel. -/
def StateBuffer.get {S : Type} (b : StateBuffer S) : Option S := b.value

/-- Modelled from the spec: the CommandBuffer component, missing from the
sources: the latest command with its receipt time, or nothing before the first
receipt. -/
structure CommandBuffer (C : Type) where
  stored : Option (C × ℚ)
deriving DecidableEq

/-- Modelled from the spec: `CommandBuffer.store(command, receivedAt)` replaces
the stored command and timestamp. -/
def CommandBuffer.store {C : Type} (_b : CommandBuffer C) (command : C) (receivedAt : ℚ) :
    CommandBuffer C :=
  ⟨some (command, receivedAt)⟩

/-- Modelled from the spec: `CommandBuffer.peek()` returns the stored command
and timestamp, or absent. -/
def CommandBuffer.peek {C : Type} (b : CommandBuffer C) : Option (C × ℚ) := b.stored

/-- Modelled from the spec: the PublishThrottle component, missing from the
sources.  `lastPublishedAt = none` stands for minus infinity (nothing
published yet). -/
structure PublishThrottle where
  lastPublishedAt : Option ℚ
deriving DecidableEq

/-- Modelled from the spec: `PublishThrottle.shouldPublish(now)`, missing from
the sources.  Publish unconditionally when `now - lastPublishedAt ≥
maxInterval`; else publish when `now - lastPublishedAt ≥ minInterval` and the
state has changed since the last publish; otherwise suppress.  The first call
always publishes. -/
def PublishThrottle.shouldPublish (c : BridgeConfig) (th : PublishThrottle) (now : ℚ)
    (changed : Bool) : Bool :=
  match th.lastPublishedAt with
  | none => true
  | some lastPublishedAt =>
    if now - lastPublishedAt ≥ c.maxInterval then true
    else if now - lastPublishedAt ≥ c.minInterval ∧ changed = true then true
    else false

/-- Modelled from the spec: `CommandWatchdog.isStale(now)`, missing from the
sources: `(now - lastReceivedAt) > timeout`, or `true` if no command was ever
received. -/
def CommandWatchdog.isStale {C : Type} (timeout : ℚ) (buf : CommandBuffer C) (now : ℚ) : Bool :=
  match buf.peek with
  | none => true
  | some (_, lastReceivedAt) => decide (now - lastReceivedAt > timeout)

/-- Modelled from the spec: the EntityBridge composition (an active bridge),
missing from the sources: configuration, the two buffers, the throttle, and the
state last handed to the transport, against which "changed since the last
publish" is judged. -/
structure EntityBridge (S C : Type) where
  config : BridgeConfig
  stateBuffer : StateBuffer S
  commandBuffer : CommandBuffer C
  throttle : PublishThrottle
  published : Option S

namespace EntityBridge

variable {S C R : Type}

/-- Modelled from the spec: bridge creation, missing from the sources: both
buffers empty, nothing published yet. -/
def create (cfg : BridgeConfig) : EntityBridge S C :=
  { config := cfg, stateBuffer := ⟨none⟩, commandBuffer := ⟨none⟩,
    throttle := ⟨none⟩, published := none }

/-- Modelled from the spec: `EntityBridge.pushState(state)` at time `now`,
missing from the sources: store into the state buffer; if the throttle says so,
hand the state to the transport (second component) and set
`lastPublishedAt = now`. -/
def pushState [DecidableEq S] (b : EntityBridge S C) (state : S) (now : ℚ) :
    EntityBridge S C × Option S :=
  let buf := b.stateBuffer.set state
  let changed : Bool := decide (buf.get ≠ b.published)
  if b.throttle.shouldPublish b.config now changed = true then
    ({ b with stateBuffer := buf, throttle := ⟨some now⟩, published := some state }, some state)
  else
    ({ b with stateBuffer := buf }, none)

/-- Modelled from the spec: `EntityBridge.getCommand(now)`, missing from the
sources (`Object::get_command` is declared only): the latest buffered command
and its staleness flag. -/
def getCommand (b : EntityBridge S C) (now : ℚ) : Option C × Bool :=
  (b.commandBuffer.peek.map Prod.fst, CommandWatchdog.isStale b.config.timeout b.commandBuffer now)

/-- Modelled from the spec: `EntityBridge.onInboundMessage(raw, now)`, missing
from the sources: a payload that does not decode is dropped and the buffer is
left unchanged; a decoded command is stored with timestamp `now`. -/
def onInboundMessage (decode : R → Option C) (b : EntityBridge S C) (raw : R) (now : ℚ) :
    EntityBridge S C :=
  match decode raw with
  | none => b
  | some cmd => { b with commandBuffer := b.commandBuffer.store cmd now }

/-- A sequence of `pushState` calls, each a time and a state: the bridge after
the calls and the times at which a state was handed to the transport. -/
def run [DecidableEq S] (b : EntityBridge S C) : List (ℚ × S) → EntityBridge S C × List ℚ
  | [] => (b, [])
  | (now, state) :: rest =>
    let r := b.pushState state now
    let q := run r.1 rest
    match r.2 with
    | some _ => (q.1, now :: q.2)
    | none => (q.1, q.2)

/-- The publication times of a sequence of `pushState` calls on a fresh bridge. -/
def pubTimes [DecidableEq S] (cfg : BridgeConfig) (ticks : List (ℚ × S)) : List ℚ :=
  (run (create cfg : EntityBridge S Unit) ticks).2

end EntityBridge

/-- Every two consecutive entries of the list are at least `d` apart. -/
def gapsAtLeast (d : ℚ) : List ℚ → Bool
  | a :: b :: rest => decide (b - a ≥ d) && gapsAtLeast d (b :: rest)
  | _ => true

/-- Every two consecutive entries of the list are at most `d` apart. -/
def gapsAtMost (d : ℚ) : List ℚ → Bool
  | a :: b :: rest => decide (b - a ≤ d) && gapsAtMost d (b :: rest)
  | _ => true

/-- The list is non-decreasing. -/
def nonDecreasing : List ℚ → Bool
  | a :: b :: rest => decide (a ≤ b) && nonDecreasing (b :: rest)
  | _ => true

/-- The configuration of the specification's scenario: 1 Hz to 10 Hz, timeout
half a second. -/
def BridgeConfig.sample : BridgeConfig :=
  { name := "box", name_space := "/ambf/env/", min_frequency := 1, max_frequency := 10,
    timeout := 1 / 2 }

/-- The two pushes of the throttle counterexample: a state at time 0 and a
changed state (mass set to `1.0`) at time 100. -/
def sparseTicks : List (ℚ × ObjectState) :=
  [(0, Object.sample.m_State), (100, (Object.sample.set_mass Double.one).m_State)]

/-- The pushes of the specification's scenario: state A at 0, A again at 0.05,
a changed state B at 0.12. -/
def scenarioTicks : List (ℚ × ObjectState) :=
  [(0, Object.sample.m_State), (1 / 20, Object.sample.m_State),
    (3 / 25, (Object.sample.set_mass Double.one).m_State)]

/-! ## Theorems: the setters of `Object` and `Vehicle` -/

/-- C1, as the claim states it, fails: on an object and on a vehicle whose
stored mass is `+0.0` (so `mass >= 0` holds), `set_mass(-1.0)` leaves a stored
mass for which `mass >= 0` is false. -/
theorem set_mass_negative_counterexample :
    Double.ge0 Object.sample.m_State.mass = true ∧
    Double.ge0 (Object.sample.set_mass Double.negOne).m_State.mass = false ∧
    Double.ge0 Vehicle.sample.m_State.mass = true ∧
    Double.ge0 (Vehicle.sample.set_mass Double.negOne).m_State.mass = false := by
  decide

/-- C1, amended: `Object::set_mass(a_mass)` and `Vehicle::set_mass(mass)` store
their argument unchecked, whatever the state before: the stored mass after the
call is the argument, so it is `>= 0` exactly when the argument is. -/
theorem set_mass_nonneg_iff_argument (o : Object) (v : Vehicle) (a_mass : Double) :
    (o.set_mass a_mass).m_State.mass = a_mass ∧
    (Double.ge0 (o.set_mass a_mass).m_State.mass = true ↔ Double.ge0 a_mass = true) ∧
    (v.set_mass a_mass).m_State.mass = a_mass ∧
    (Double.ge0 (v.set_mass a_mass).m_State.mass = true ↔ Double.ge0 a_mass = true) :=
  ⟨rfl, Iff.rfl, rfl, Iff.rfl⟩

/-- C2, as the claim states it, fails: on an object and on a vehicle whose
three stored inertia components are `+0.0`, `set_principal_inertia(1.0, 2.0,
-1.0)` leaves a `z` component for which `>= 0` is false, and
`set_principal_inertia(-1.0, NaN, 1.0)` does so for `x` and `y`. -/
theorem set_principal_inertia_negative_counterexample :
    (Double.ge0 Object.sample.m_State.pInertia.x = true ∧
      Double.ge0 Object.sample.m_State.pInertia.y = true ∧
      Double.ge0 Object.sample.m_State.pInertia.z = true) ∧
    Double.ge0 (Object.sample.set_principal_inertia Double.one Double.two
      Double.negOne).m_State.pInertia.z = false ∧
    Double.ge0 (Object.sample.set_principal_inertia Double.negOne Double.qNaN
      Double.one).m_State.pInertia.x = false ∧
    Double.ge0 (Object.sample.set_principal_inertia Double.negOne Double.qNaN
      Double.one).m_State.pInertia.y = false ∧
    (Double.ge0 Vehicle.sample.m_State.pInertia.x = true ∧
      Double.ge0 Vehicle.sample.m_State.pInertia.y = true ∧
      Double.ge0 Vehicle.sample.m_State.pInertia.z = true) ∧
    Double.ge0 (Vehicle.sample.set_principal_inertia Double.one Double.two
      Double.negOne).m_State.pInertia.z = false ∧
    Double.ge0 (Vehicle.sample.set_principal_inertia Double.negOne Double.qNaN
      Double.one).m_State.pInertia.x = false ∧
    Double.ge0 (Vehicle.sample.set_principal_inertia Double.negOne Double.qNaN
      Double.one).m_State.pInertia.y = false := by
  decide

/-- C2, amended: `Object::set_principal_inertia` and
`Vehicle::set_principal_inertia` store their three arguments unchecked,
whatever the state before: each stored component after the call is the
corresponding argument, so it is `>= 0` exactly when that argument is. -/
theorem set_principal_inertia_nonneg_iff_arguments (o : Object) (v : Vehicle)
    (a b c : Double) :
    (o.set_principal_inertia a b c).m_State.pInertia = ⟨a, b, c⟩ ∧
    (Double.ge0 (o.set_principal_inertia a b c).m_State.pInertia.x = true ↔
      Double.ge0 a = true) ∧
    (Double.ge0 (o.set_principal_inertia a b c).m_State.pInertia.y = true ↔
      Double.ge0 b = true) ∧
    (Double.ge0 (o.set_principal_inertia a b c).m_State.pInertia.z = true ↔
      Double.ge0 c = true) ∧
    (v.set_principal_inertia a b c).m_State.pInertia = ⟨a, b, c⟩ ∧
    (Double.ge0 (v.set_principal_inertia a b c).m_State.pInertia.x = true ↔
      Double.ge0 a = true) ∧
    (Double.ge0 (v.set_principal_inertia a b c).m_State.pInertia.y = true ↔
      Double.ge0 b = true) ∧
    (Double.ge0 (v.set_principal_inertia a b c).m_State.pInertia.z = true ↔
      Double.ge0 c = true) :=
  ⟨rfl, Iff.rfl, Iff.rfl, Iff.rfl, rfl, Iff.rfl, Iff.rfl, Iff.rfl⟩

/-- C3, as the claim states it, fails: on a vehicle whose wheel count is `0`,
`set_wheel_count(-1)`, with `-1` a value of type `int`, leaves the wheel count
`-1`, which is negative. -/
theorem set_wheel_count_negative_counterexample :
    0 ≤ Vehicle.sample.m_State.wheel_count ∧ isInt32 (-1) = true ∧
    (Vehicle.sample.set_wheel_count (-1)).m_State.wheel_count = -1 ∧
    ¬ 0 ≤ (Vehicle.sample.set_wheel_count (-1)).m_State.wheel_count := by
  decide

/-- C3, amended: `Vehicle::set_wheel_count(count)` stores its argument
unchecked, whatever the state before: the wheel count after the call is
`count`, so it is `>= 0` exactly when `count` is. -/
theorem set_wheel_count_nonneg_iff_argument (v : Vehicle) (count : Int) :
    (v.set_wheel_count count).m_State.wheel_count = count ∧
    (0 ≤ (v.set_wheel_count count).m_State.wheel_count ↔ 0 ≤ count) :=
  ⟨rfl, Iff.rfl⟩

/-- C4: none of `Object::set_mass`, `Object::set_principal_inertia`,
`Object::set_userdata_desc`, `Vehicle::set_wheel_count`, `Vehicle::set_mass`
and `Vehicle::set_principal_inertia` changes the name or the namespace of the
state. -/
theorem setters_preserve_identity (o : Object) (v : Vehicle) (m a b c : Double)
    (description : String) (count : Int) :
    ((o.set_mass m).m_State.name = o.m_State.name ∧
      (o.set_mass m).m_State.name_space = o.m_State.name_space) ∧
    ((o.set_principal_inertia a b c).m_State.name = o.m_State.name ∧
      (o.set_principal_inertia a b c).m_State.name_space = o.m_State.name_space) ∧
    ((o.set_userdata_desc description).m_State.name = o.m_State.name ∧
      (o.set_userdata_desc description).m_State.name_space = o.m_State.name_space) ∧
    ((v.set_wheel_count count).m_State.name = v.m_State.name ∧
      (v.set_wheel_count count).m_State.name_space = v.m_State.name_space) ∧
    ((v.set_mass m).m_State.name = v.m_State.name ∧
      (v.set_mass m).m_State.name_space = v.m_State.name_space) ∧
    ((v.set_principal_inertia a b c).m_State.name = v.m_State.name ∧
      (v.set_principal_inertia a b c).m_State.name_space = v.m_State.name_space) :=
  ⟨⟨rfl, rfl⟩, ⟨rfl, rfl⟩, ⟨rfl, rfl⟩, ⟨rfl, rfl⟩, ⟨rfl, rfl⟩, ⟨rfl, rfl⟩⟩

/-- C5: after `Object::set_userdata_desc(description)` the stored description
is `description` itself, for every string and for the empty string, and every
other field of the state (user data, mass, principal inertia, children names
and joint names among them) is as before. -/
theorem set_userdata_desc_exact_and_frame (o : Object) (description : String) :
    (o.set_userdata_desc description).m_State.userdata_description = description ∧
    (o.set_userdata_desc "").m_State.userdata_description = "" ∧
    ObjectState.agreeExceptDesc (o.set_userdata_desc description).m_State o.m_State :=
  ⟨rfl, rfl, rfl, rfl, rfl, rfl, rfl, rfl, rfl, rfl, rfl, rfl, rfl, rfl⟩

/-- C8: the setters keep no history.  Two successive calls of
`Object::set_mass`, `Object::set_principal_inertia`, `Object::set_userdata_desc`
or `Vehicle::set_wheel_count` leave the object the second call alone leaves,
and calling one of them twice with the same arguments is the same as calling
it once. -/
theorem setters_last_write_wins (o : Object) (v : Vehicle) (a b : Double)
    (a1 a2 a3 b1 b2 b3 : Double) (d e : String) (m n : Int) :
    (o.set_mass a).set_mass b = o.set_mass b ∧
    (o.set_principal_inertia a1 a2 a3).set_principal_inertia b1 b2 b3 =
      o.set_principal_inertia b1 b2 b3 ∧
    (o.set_userdata_desc d).set_userdata_desc e = o.set_userdata_desc e ∧
    (v.set_wheel_count m).set_wheel_count n = v.set_wheel_count n ∧
    (o.set_mass a).set_mass a = o.set_mass a ∧
    (o.set_principal_inertia a1 a2 a3).set_principal_inertia a1 a2 a3 =
      o.set_principal_inertia a1 a2 a3 ∧
    (o.set_userdata_desc d).set_userdata_desc d = o.set_userdata_desc d ∧
    (v.set_wheel_count m).set_wheel_count m = v.set_wheel_count m :=
  ⟨rfl, rfl, rfl, rfl, rfl, rfl, rfl, rfl⟩

/-- C9: `Object::get_children_names` and `Object::get_joint_names` return the
stored sequence (same length, same element at every index), leave the object
as it was, and return the same after a preceding `Object::set_mass`,
`Object::set_principal_inertia` or `Object::set_userdata_desc`. -/
theorem name_getters_read_only_exact (o : Object) (m a b c : Double) (d : String) :
    (o.get_children_names.1 = o.m_State.children_names ∧
      o.get_children_names.1.length = o.m_State.children_names.length ∧
      (∀ i : Nat, o.get_children_names.1[i]? = o.m_State.children_names[i]?) ∧
      o.get_children_names.2 = o ∧
      (o.set_mass m).get_children_names.1 = o.get_children_names.1 ∧
      (o.set_principal_inertia a b c).get_children_names.1 = o.get_children_names.1 ∧
      (o.set_userdata_desc d).get_children_names.1 = o.get_children_names.1) ∧
    (o.get_joint_names.1 = o.m_State.joint_names ∧
      o.get_joint_names.1.length = o.m_State.joint_names.length ∧
      (∀ i : Nat, o.get_joint_names.1[i]? = o.m_State.joint_names[i]?) ∧
      o.get_joint_names.2 = o ∧
      (o.set_mass m).get_joint_names.1 = o.get_joint_names.1 ∧
      (o.set_principal_inertia a b c).get_joint_names.1 = o.get_joint_names.1 ∧
      (o.set_userdata_desc d).get_joint_names.1 = o.get_joint_names.1) :=
  ⟨⟨rfl, rfl, fun _ => rfl, rfl, rfl, rfl, rfl⟩, ⟨rfl, rfl, fun _ => rfl, rfl, rfl, rfl, rfl⟩⟩

/-- C10: the two variants agree on the shared dynamics setters.
`Object::set_mass(m)` and `Vehicle::set_mass(m)` both store `m` as the mass;
`Object::set_principal_inertia(a, b, c)` and
`Vehicle::set_principal_inertia(a, b, c)` both store `x = a`, `y = b`, `z = c`;
each leaves every other field of its own state as it was; so an object state
and a vehicle state that agree on mass and principal inertia before the same
call agree on them after it. -/
theorem object_vehicle_dynamics_setters_agree (o : Object) (v : Vehicle) (m a b c : Double) :
    ((o.set_mass m).m_State.mass = m ∧ (v.set_mass m).m_State.mass = m) ∧
    (((o.set_principal_inertia a b c).m_State.pInertia.x = a ∧
        (o.set_principal_inertia a b c).m_State.pInertia.y = b ∧
        (o.set_principal_inertia a b c).m_State.pInertia.z = c) ∧
      ((v.set_principal_inertia a b c).m_State.pInertia.x = a ∧
        (v.set_principal_inertia a b c).m_State.pInertia.y = b ∧
        (v.set_principal_inertia a b c).m_State.pInertia.z = c)) ∧
    (ObjectState.agreeExceptMass (o.set_mass m).m_State o.m_State ∧
      VehicleState.agreeExceptMass (v.set_mass m).m_State v.m_State ∧
      ObjectState.agreeExceptInertia (o.set_principal_inertia a b c).m_State o.m_State ∧
      VehicleState.agreeExceptInertia (v.set_principal_inertia a b c).m_State v.m_State) ∧
    (o.m_State.mass = v.m_State.mass ∧ o.m_State.pInertia = v.m_State.pInertia →
      ((o.set_mass m).m_State.mass = (v.set_mass m).m_State.mass ∧
        (o.set_mass m).m_State.pInertia = (v.set_mass m).m_State.pInertia) ∧
      ((o.set_principal_inertia a b c).m_State.mass =
          (v.set_principal_inertia a b c).m_State.mass ∧
        (o.set_principal_inertia a b c).m_State.pInertia =
          (v.set_principal_inertia a b c).m_State.pInertia)) :=
  ⟨⟨rfl, rfl⟩, ⟨⟨rfl, rfl, rfl⟩, ⟨rfl, rfl, rfl⟩⟩,
    ⟨⟨rfl, rfl, rfl, rfl, rfl, rfl, rfl, rfl, rfl, rfl, rfl, rfl⟩,
      ⟨rfl, rfl, rfl, rfl, rfl, rfl, rfl, rfl, rfl, rfl, rfl, rfl, rfl, rfl⟩,
      ⟨rfl, rfl, rfl, rfl, rfl, rfl, rfl, rfl, rfl, rfl, rfl, rfl⟩,
      ⟨rfl, rfl, rfl, rfl, rfl, rfl, rfl, rfl, rfl, rfl, rfl, rfl, rfl, rfl⟩⟩,
    fun h => ⟨⟨rfl, h.2⟩, ⟨h.1, rfl⟩⟩⟩

/-- C10 at a concrete input: the sample object and the sample vehicle agree on
mass and principal inertia, and still do after `set_mass(2.0)` and after
`set_principal_inertia(1.0, 2.0, -1.0)`. -/
theorem object_vehicle_dynamics_setters_agree_witness :
    (Object.sample.m_State.mass = Vehicle.sample.m_State.mass ∧
      Object.sample.m_State.pInertia = Vehicle.sample.m_State.pInertia) ∧
    ((Object.sample.set_mass Double.two).m_State.mass =
        (Vehicle.sample.set_mass Double.two).m_State.mass ∧
      (Object.sample.set_mass Double.two).m_State.pInertia =
        (Vehicle.sample.set_mass Double.two).m_State.pInertia) ∧
    ((Object.sample.set_principal_inertia Double.one Double.two Double.negOne).m_State.mass =
        (Vehicle.sample.set_principal_inertia Double.one Double.two Double.negOne).m_State.mass ∧
      (Object.sample.set_principal_inertia Double.one Double.two Double.negOne).m_State.pInertia =
        (Vehicle.sample.set_principal_inertia Double.one Double.two
          Double.negOne).m_State.pInertia) :=
  ⟨⟨rfl, rfl⟩,
    (object_vehicle_dynamics_setters_agree Object.sample Vehicle.sample Double.two Double.one
      Double.two Double.negOne).2.2.2 ⟨rfl, rfl⟩⟩

/-! ## Theorems: the publish throttle -/

/-- Unfolding `gapsAtLeast` at a non-empty list. -/
theorem gapsAtLeast_cons (d a : ℚ) (l : List ℚ) :
    gapsAtLeast d (a :: l) = true ↔
      (∀ p, l.head? = some p → p - a ≥ d) ∧ gapsAtLeast d l = true := by
  cases l with
  | nil => simp [gapsAtLeast]
  | cons b rest => simp [gapsAtLeast]

/-- With `0 < min_frequency ≤ max_frequency`, the minimum interval is at most the
maximum interval. -/
theorem BridgeConfig.minInterval_le_maxInterval (c : BridgeConfig)
    (hmin : 0 < c.min_frequency) (hle : c.min_frequency ≤ c.max_frequency) :
    c.minInterval ≤ c.maxInterval := by
  unfold BridgeConfig.minInterval BridgeConfig.maxInterval
  exact one_div_le_one_div_of_le hmin hle

/-- When the throttle decides to publish after an earlier publication, at least
the minimum interval has elapsed. -/
theorem PublishThrottle.shouldPublish_gap (c : BridgeConfig)
    (hmin : 0 < c.min_frequency) (hle : c.min_frequency ≤ c.max_frequency)
    (th : PublishThrottle) (now last : ℚ) (changed : Bool)
    (hlast : th.lastPublishedAt = some last)
    (h : th.shouldPublish c now changed = true) : now - last ≥ c.minInterval := by
  have hmm := c.minInterval_le_maxInterval hmin hle
  unfold PublishThrottle.shouldPublish at h
  rw [hlast] at h
  simp only at h
  by_cases h1 : now - last ≥ c.maxInterval
  · exact le_trans hmm h1
  · rw [if_neg h1] at h
    by_cases h2 : now - last ≥ c.minInterval ∧ changed = true
    · exact h2.1
    · rw [if_neg h2] at h
      exact absurd h (by decide)

/-- When the maximum interval has elapsed since the last publication, the
throttle decides to publish. -/
theorem PublishThrottle.shouldPublish_floor (c : BridgeConfig) (th : PublishThrottle)
    (now last : ℚ) (changed : Bool) (hlast : th.lastPublishedAt = some last)
    (h : now - last ≥ c.maxInterval) : th.shouldPublish c now changed = true := by
  unfold PublishThrottle.shouldPublish
  rw [hlast]
  simp only
  rw [if_pos h]

namespace EntityBridge

variable {S C : Type} [DecidableEq S]

/-- A push leaves the configuration as it was. -/
theorem pushState_config (b : EntityBridge S C) (state : S) (now : ℚ) :
    (b.pushState state now).1.config = b.config := by
  unfold pushState
  simp only
  split <;> rfl

/-- A push leaves the command buffer as it was. -/
theorem pushState_commandBuffer (b : EntityBridge S C) (state : S) (now : ℚ) :
    (b.pushState state now).1.commandBuffer = b.commandBuffer := by
  unfold pushState
  simp only
  split <;> rfl

/-- A sequence of pushes leaves the configuration as it was. -/
theorem run_config (ticks : List (ℚ × S)) :
    ∀ b : EntityBridge S C, (run b ticks).1.config = b.config := by
  induction ticks with
  | nil => intro b; rfl
  | cons t rest ih =>
    intro b
    obtain ⟨now, state⟩ := t
    have h := ih (b.pushState state now).1
    rw [pushState_config] at h
    simp only [run]
    split <;> exact h

/-- A sequence of pushes leaves the command buffer as it was. -/
theorem run_commandBuffer (ticks : List (ℚ × S)) :
    ∀ b : EntityBridge S C, (run b ticks).1.commandBuffer = b.commandBuffer := by
  induction ticks with
  | nil => intro b; rfl
  | cons t rest ih =>
    intro b
    obtain ⟨now, state⟩ := t
    have h := ih (b.pushState state now).1
    rw [pushState_commandBuffer] at h
    simp only [run]
    split <;> exact h

end EntityBridge

namespace EntityBridge

variable {S C : Type} [DecidableEq S]

/-- A push either publishes, setting `lastPublishedAt`, or is suppressed and
leaves the throttle as it was. -/
theorem pushState_cases (b : EntityBridge S C) (state : S) (now : ℚ) :
    (b.throttle.shouldPublish b.config now
        (decide ((b.stateBuffer.set state).get ≠ b.published)) = true ∧
      (b.pushState state now).2 = some state ∧
      (b.pushState state now).1.throttle = ⟨some now⟩) ∨
    (b.throttle.shouldPublish b.config now
        (decide ((b.stateBuffer.set state).get ≠ b.published)) = false ∧
      (b.pushState state now).2 = none ∧
      (b.pushState state now).1.throttle = b.throttle) := by
  unfold pushState
  simp only
  by_cases h : b.throttle.shouldPublish b.config now
      (decide ((b.stateBuffer.set state).get ≠ b.published)) = true
  · left
    rw [if_pos h]
    exact ⟨h, rfl, rfl⟩
  · right
    rw [if_neg h]
    exact ⟨by simpa using h, rfl, rfl⟩

/-- The run over a sequence whose first push is published. -/
theorem run_cons_publish (b : EntityBridge S C) (state : S) (now : ℚ) (rest : List (ℚ × S))
    (h : (b.pushState state now).2 = some state) :
    run b ((now, state) :: rest) =
      ((run (b.pushState state now).1 rest).1, now :: (run (b.pushState state now).1 rest).2) := by
  simp only [run]
  rw [h]

/-- The run over a sequence whose first push is suppressed. -/
theorem run_cons_suppress (b : EntityBridge S C) (state : S) (now : ℚ) (rest : List (ℚ × S))
    (h : (b.pushState state now).2 = none) :
    run b ((now, state) :: rest) = run (b.pushState state now).1 rest := by
  simp only [run]
  rw [h]

/-- From any bridge state: consecutive publications of a run are at least the
minimum interval apart, and so is the first of them from the publication
before the run. -/
theorem run_gaps (c : BridgeConfig) (hmin : 0 < c.min_frequency)
    (hle : c.min_frequency ≤ c.max_frequency) (ticks : List (ℚ × S)) :
    ∀ b : EntityBridge S C, b.config = c →
      gapsAtLeast c.minInterval (run b ticks).2 = true ∧
      ∀ last, b.throttle.lastPublishedAt = some last →
        ∀ p, (run b ticks).2.head? = some p → p - last ≥ c.minInterval := by
  induction ticks with
  | nil =>
    intro b _
    exact ⟨rfl, fun _ _ p hp => by simp [run] at hp⟩
  | cons t rest ih =>
    intro b hb
    obtain ⟨now, state⟩ := t
    have hcfg : (b.pushState state now).1.config = c := by rw [pushState_config, hb]
    obtain ⟨ihg, ihh⟩ := ih (b.pushState state now).1 hcfg
    rcases pushState_cases b state now with ⟨hs, h2, hth⟩ | ⟨_, h2, hth⟩
    · rw [run_cons_publish b state now rest h2]
      refine ⟨?_, ?_⟩
      · rw [gapsAtLeast_cons]
        refine ⟨fun p hp => ihh now ?_ p hp, ihg⟩
        rw [hth]
      · intro last hlast p hp
        simp only [List.head?_cons, Option.some.injEq] at hp
        subst hp
        rw [hb] at hs
        exact PublishThrottle.shouldPublish_gap c hmin hle b.throttle now last _ hlast hs
    · rw [run_cons_suppress b state now rest h2]
      refine ⟨ihg, fun last hlast p hp => ihh last ?_ p hp⟩
      rw [hth]
      exact hlast

/-- The run over a concatenation is the run over the first part followed by the
run over the second. -/
theorem run_append (t1 : List (ℚ × S)) :
    ∀ (b : EntityBridge S C) (t2 : List (ℚ × S)),
      run b (t1 ++ t2) = ((run (run b t1).1 t2).1, (run b t1).2 ++ (run (run b t1).1 t2).2) := by
  induction t1 with
  | nil => intro b t2; rfl
  | cons t rest ih =>
    intro b t2
    obtain ⟨now, state⟩ := t
    rcases pushState_cases b state now with ⟨_, h2, _⟩ | ⟨_, h2, _⟩
    · rw [List.cons_append, run_cons_publish b state now _ h2,
        run_cons_publish b state now _ h2, ih]
      rfl
    · rw [List.cons_append, run_cons_suppress b state now _ h2,
        run_cons_suppress b state now _ h2, ih]

/-- After a run, `lastPublishedAt` is the last publication of the run, or what
it was before when the run published nothing. -/
theorem run_lastPublishedAt (ticks : List (ℚ × S)) :
    ∀ b : EntityBridge S C,
      (run b ticks).1.throttle.lastPublishedAt =
        ((run b ticks).2.getLast?).or b.throttle.lastPublishedAt := by
  induction ticks with
  | nil => intro b; rfl
  | cons t rest ih =>
    intro b
    obtain ⟨now, state⟩ := t
    rcases pushState_cases b state now with ⟨_, h2, hth⟩ | ⟨_, h2, hth⟩
    · rw [run_cons_publish b state now rest h2]
      simp only
      rw [ih, hth]
      cases hq : (run (b.pushState state now).1 rest).2 with
      | nil => simp
      | cons p ps =>
        rw [List.getLast?_cons_cons, List.getLast?_eq_getLast (p :: ps) (List.cons_ne_nil p ps)]
        rfl
    · rw [run_cons_suppress b state now rest h2, ih, hth]

end EntityBridge

/-- C6, as the claim states it, fails in its upper bound: with 1 Hz to 10 Hz
(so `0 < min_frequency <= max_frequency`), a state pushed at time 0 and a
changed state pushed at time 100 (non-decreasing times) are both published,
no push is suppressed, and the two publications are 100 apart, more than
`1/min_frequency = 1`. -/
theorem publish_gap_upper_bound_counterexample :
    (0 < BridgeConfig.sample.min_frequency ∧
      BridgeConfig.sample.min_frequency ≤ BridgeConfig.sample.max_frequency) ∧
    nonDecreasing (sparseTicks.map Prod.fst) = true ∧
    EntityBridge.pubTimes BridgeConfig.sample sparseTicks = sparseTicks.map Prod.fst ∧
    EntityBridge.pubTimes BridgeConfig.sample sparseTicks = [0, 100] ∧
    gapsAtMost (1 / BridgeConfig.sample.min_frequency)
      (EntityBridge.pubTimes BridgeConfig.sample sparseTicks) = false := by
  have hp : EntityBridge.pubTimes BridgeConfig.sample sparseTicks = [0, 100] := by
    simp [EntityBridge.pubTimes, EntityBridge.run, EntityBridge.pushState, EntityBridge.create,
      PublishThrottle.shouldPublish, StateBuffer.set, StateBuffer.get, BridgeConfig.sample,
      BridgeConfig.maxInterval, BridgeConfig.minInterval, sparseTicks]
  refine ⟨⟨by norm_num [BridgeConfig.sample], by norm_num [BridgeConfig.sample]⟩, ?_, ?_, hp, ?_⟩
  · simp [sparseTicks, nonDecreasing]
  · rw [hp]; simp [sparseTicks]
  · rw [hp]; simp [gapsAtMost, BridgeConfig.sample]

/-- C6, amended: for every configuration with `0 < min_frequency <=
max_frequency` and every sequence of `pushState` calls on a fresh bridge, two
consecutive publications are at least `1/max_frequency` apart; and a push made
`1/min_frequency` or more after the latest publication is always published.
How far apart two publications are is otherwise up to when the caller pushes. -/
theorem publish_gap_lower_bound_and_floor {S : Type} [DecidableEq S] (c : BridgeConfig)
    (hmin : 0 < c.min_frequency) (hle : c.min_frequency ≤ c.max_frequency)
    (ticks : List (ℚ × S)) :
    gapsAtLeast (1 / c.max_frequency) (EntityBridge.pubTimes c ticks) = true ∧
    ∀ (now : ℚ) (state : S) (last : ℚ),
      (EntityBridge.pubTimes c ticks).getLast? = some last →
      now - last ≥ 1 / c.min_frequency →
      EntityBridge.pubTimes c (ticks ++ [(now, state)]) =
        EntityBridge.pubTimes c ticks ++ [now] := by
  refine ⟨(EntityBridge.run_gaps c hmin hle ticks (EntityBridge.create c) rfl).1, ?_⟩
  intro now state last hlast hge
  have hl := EntityBridge.run_lastPublishedAt ticks (EntityBridge.create c : EntityBridge S Unit)
  have hcfg := EntityBridge.run_config ticks (EntityBridge.create c : EntityBridge S Unit)
  unfold EntityBridge.pubTimes at hlast ⊢
  rw [hlast] at hl
  rw [EntityBridge.run_append]
  simp only
  congr 1
  rcases EntityBridge.pushState_cases
      (EntityBridge.run (EntityBridge.create c : EntityBridge S Unit) ticks).1 state now with
    ⟨_, h2, _⟩ | ⟨hs, _, _⟩
  · rw [EntityBridge.run_cons_publish _ state now [] h2]
    rfl
  · rw [PublishThrottle.shouldPublish_floor _ _ now last _ hl (by rw [hcfg]; exact hge)] at hs
    exact absurd hs (by decide)

/-- C6 at a concrete input, the specification's scenario: 1 Hz to 10 Hz, state
A at 0, A again at 0.05, changed state B at 0.12.  Publications are at least
0.1 apart, and a push at 1.12, one second after the latest publication, is
published. -/
theorem publish_gap_lower_bound_and_floor_witness :
    (0 < BridgeConfig.sample.min_frequency ∧
      BridgeConfig.sample.min_frequency ≤ BridgeConfig.sample.max_frequency) ∧
    EntityBridge.pubTimes BridgeConfig.sample scenarioTicks = [0, 3 / 25] ∧
    gapsAtLeast (1 / BridgeConfig.sample.max_frequency)
      (EntityBridge.pubTimes BridgeConfig.sample scenarioTicks) = true ∧
    EntityBridge.pubTimes BridgeConfig.sample
        (scenarioTicks ++ [(28 / 25, Object.sample.m_State)]) =
      EntityBridge.pubTimes BridgeConfig.sample scenarioTicks ++ [28 / 25] := by
  have hne : ¬ (Object.sample.set_mass Double.one).m_State = Object.sample.m_State := by
    decide
  have hp : EntityBridge.pubTimes BridgeConfig.sample scenarioTicks = [0, 3 / 25] := by
    simp [EntityBridge.pubTimes, EntityBridge.run, EntityBridge.pushState, EntityBridge.create,
      PublishThrottle.shouldPublish, StateBuffer.set, StateBuffer.get, BridgeConfig.sample,
      BridgeConfig.maxInterval, BridgeConfig.minInterval, scenarioTicks, hne]
    norm_num [hne]
  have h0 : 0 < BridgeConfig.sample.min_frequency := by norm_num [BridgeConfig.sample]
  have h1 : BridgeConfig.sample.min_frequency ≤ BridgeConfig.sample.max_frequency := by
    norm_num [BridgeConfig.sample]
  exact ⟨⟨h0, h1⟩, hp,
    (publish_gap_lower_bound_and_floor BridgeConfig.sample h0 h1 scenarioTicks).1,
    (publish_gap_lower_bound_and_floor BridgeConfig.sample h0 h1 scenarioTicks).2 (28 / 25)
      Object.sample.m_State (3 / 25) (by rw [hp]; rfl) (by norm_num [BridgeConfig.sample])⟩

/-! ## Theorems: the command watchdog -/

/-- C7: command staleness equals its reference definition.  On a bridge that
has only ever been pushed states (no command received), `getCommand` reports
`isStale = true` at every time; and after `store(cmd, t)`, `isStale(now)` is
false when `now - t <= timeout` and true when `now - t > timeout`, which is
also the flag `getCommand` reports once the command has come in at time `t`. -/
theorem command_staleness_reference {S C : Type} [DecidableEq S] (cfg : BridgeConfig)
    (ticks : List (ℚ × S)) (b : EntityBridge S C) (cmd : C) (t now : ℚ) :
    ((EntityBridge.run (EntityBridge.create cfg : EntityBridge S C) ticks).1.getCommand now).2
      = true ∧
    (now - t ≤ b.config.timeout →
      CommandWatchdog.isStale b.config.timeout (b.commandBuffer.store cmd t) now = false) ∧
    (now - t > b.config.timeout →
      CommandWatchdog.isStale b.config.timeout (b.commandBuffer.store cmd t) now = true) ∧
    ((b.onInboundMessage some cmd t).getCommand now).2 =
      CommandWatchdog.isStale b.config.timeout (b.commandBuffer.store cmd t) now := by
  refine ⟨?_, ?_, ?_, rfl⟩
  · unfold EntityBridge.getCommand
    simp only
    rw [EntityBridge.run_commandBuffer]
    rfl
  · intro h
    simp only [CommandWatchdog.isStale, CommandBuffer.peek, CommandBuffer.store]
    exact decide_eq_false (not_lt.mpr h)
  · intro h
    simp only [CommandWatchdog.isStale, CommandBuffer.peek, CommandBuffer.store]
    exact decide_eq_true h

/-- C7 at a concrete input, the specification's scenario: timeout 0.5 s, a
command stored at 0.3: not stale at 0.7, stale at 0.9. -/
theorem command_staleness_reference_witness :
    ((7 / 10 : ℚ) - 3 / 10 ≤ BridgeConfig.sample.timeout ∧
      CommandWatchdog.isStale BridgeConfig.sample.timeout
        ((EntityBridge.create BridgeConfig.sample :
          EntityBridge ObjectState (List CFloat)).commandBuffer.store [] (3 / 10)) (7 / 10)
        = false) ∧
    ((9 / 10 : ℚ) - 3 / 10 > BridgeConfig.sample.timeout ∧
      CommandWatchdog.isStale BridgeConfig.sample.timeout
        ((EntityBridge.create BridgeConfig.sample :
          EntityBridge ObjectState (List CFloat)).commandBuffer.store [] (3 / 10)) (9 / 10)
        = true) :=
  have h1 : (7 / 10 : ℚ) - 3 / 10 ≤ BridgeConfig.sample.timeout := by
    norm_num [BridgeConfig.sample]
  have h2 : (9 / 10 : ℚ) - 3 / 10 > BridgeConfig.sample.timeout := by
    norm_num [BridgeConfig.sample]
  ⟨⟨h1, (command_staleness_reference BridgeConfig.sample ([] : List (ℚ × ObjectState))
      (EntityBridge.create BridgeConfig.sample) [] (3 / 10) (7 / 10)).2.1 h1⟩,
   ⟨h2, (command_staleness_reference BridgeConfig.sample ([] : List (ℚ × ObjectState))
      (EntityBridge.create BridgeConfig.sample) [] (3 / 10) (9 / 10)).2.2.1 h2⟩⟩

end ambf_comm
